import Mathlib

/-!
Shallow embedding of the form-filler pipeline (`src/app/main.py`).

Strings are modelled as `List Char`.  Python's `str.strip`, `str.splitlines`
and slice-based chunking are embedded directly; the two external effects
(the PDF text extractor `fitz` and the HTTP round trips of `requests.post`)
are modelled as oracle parameters, since their behaviour is outside the
program under verification.
-/

namespace FormFiller

/-- Whitespace characters removed by Python's `str.strip()` (the ASCII
whitespace set; the claims only involve ASCII text). -/
def isPySpace (c : Char) : Bool :=
  c == ' ' || c == '\t' || c == '\n' || c == '\r' || c == '\x0b' || c == '\x0c'

/-- Python's `str.strip()`: remove leading and trailing whitespace. -/
def pyStrip (s : List Char) : List Char :=
  ((s.dropWhile isPySpace).reverse.dropWhile isPySpace).reverse

/-- Line-boundary characters of Python's `str.splitlines()` (the single-char
boundaries; `"\r\n"` is treated as one boundary by `splitlinesGo`). -/
def isPyLineBreak (c : Char) : Bool :=
  c == '\n' || c == '\r' || c == '\x0b' || c == '\x0c' || c == '\x1c' ||
  c == '\x1d' || c == '\x1e' || c == '\x85' || c == '\u2028' || c == '\u2029'

/-- Worker for `splitlines`: `cur` is the (reversed) line being accumulated. -/
def splitlinesGo (cur : List Char) : List Char → List (List Char)
  | [] => if cur.isEmpty then [] else [cur.reverse]
  | '\r' :: '\n' :: rest => cur.reverse :: splitlinesGo [] rest
  | '\r' :: rest => cur.reverse :: splitlinesGo [] rest
  | c :: rest =>
    if isPyLineBreak c then cur.reverse :: splitlinesGo [] rest
    else splitlinesGo (c :: cur) rest

/-- Python's `str.splitlines()`: split at line boundaries, producing no
trailing empty line for a trailing boundary. -/
def splitlines (s : List Char) : List (List Char) :=
  splitlinesGo [] s

/-- `extract_questions` (main.py lines 66-70), modelled on the text already
extracted from the PDF (the `fitz` extraction itself is an external
collaborator): keep the stripped form of each line that contains `'?'` and
whose stripped length exceeds 5. -/
def extract_questions (text : List Char) : List (List Char) :=
  (splitlines text).filterMap fun line =>
    if '?' ∈ line ∧ 5 < (pyStrip line).length then some (pyStrip line) else none

/-! ## Inference Client (`query_huggingface`, main.py lines 17-58)

Each attempt of the retry loop observes one `Outcome` of the external
HTTP call: a response with a status code (for status 200 the parsed value
of `result.get("answer", "")` is carried in the `answer` field; for other
statuses that field is never inspected), a `requests.exceptions.Timeout`,
or any other exception (including a JSON-parse failure on a 200 body). -/

/-- Outcome of a single `requests.post` attempt, as observed by the retry
loop of `query_huggingface`. -/
inductive Outcome where
  | resp (code : Nat) (answer : List Char)
  | timeout
  | exc
deriving DecidableEq

/-- The retry loop of `query_huggingface` (main.py lines 28-58), run over the
list of outcomes of the successive attempts (one list entry per iteration of
`for attempt in range(max_retries)`).  Returns the answer string, the number
of requests actually sent, and the list of `time.sleep` durations in order.
A timeout sleeps 5s only when attempts remain (`attempt < max_retries - 1`,
i.e. the remaining outcome list is non-empty). -/
def runQuery : List Outcome → List Char × Nat × List Nat
  | [] => ([], 0, [])
  | Outcome.resp code answer :: rest =>
    if code = 503 then
      let r := runQuery rest
      (r.1, r.2.1 + 1, 20 :: r.2.2)
    else if code = 429 then
      let r := runQuery rest
      (r.1, r.2.1 + 1, 10 :: r.2.2)
    else if code = 200 then (answer, 1, [])
    else ([], 1, [])
  | Outcome.timeout :: rest =>
    if rest.isEmpty then ([], 1, [])
    else
      let r := runQuery rest
      (r.1, r.2.1 + 1, 5 :: r.2.2)
  | Outcome.exc :: _ => ([], 1, [])

/-- `query_huggingface` (main.py lines 17-58): run the retry loop over the
outcomes of attempts `0, 1, ..., max_retries - 1`.  The reference call sites
use `max_retries = 3`. -/
def query_huggingface (responses : Nat → Outcome) (max_retries : Nat) :
    List Char × Nat × List Nat :=
  runQuery ((List.range max_retries).map responses)

/-- An outcome the loop retries on: model loading (503), rate limited (429),
or a network timeout. -/
def transientOutcome (o : Outcome) : Prop :=
  (∃ b, o = Outcome.resp 503 b) ∨ (∃ b, o = Outcome.resp 429 b) ∨ o = Outcome.timeout

/-! ## Answer Pipeline (`answer_questions`, main.py lines 72-94) -/

/-- The placeholder substituted when the remote answer is empty
(main.py line 89). -/
def noAnswerMsg : List Char := "Unable to find answer".data

/-- Context truncation performed by `answer_questions` before any call
(main.py lines 77-78): `if len(context) > 4000: context = context[:4000] + "..."`. -/
def truncate_context (context : List Char) : List Char :=
  if 4000 < context.length then context.take 4000 ++ "...".data else context

/-- `answer_questions` (main.py lines 72-94).  The remote call
`query_huggingface(q, context)` is abstracted as the oracle `query`.
Questions that are empty after stripping are skipped (`if not q: continue`);
an empty remote answer is replaced by the placeholder. -/
def answer_questions (query : List Char → List Char → List Char)
    (questions : List (List Char)) (context : List Char) :
    List (List Char × List Char) :=
  let context := truncate_context context
  questions.filterMap fun q =>
    let q := pyStrip q
    if q = [] then none
    else
      let answer := query q context
      some (q, if answer = [] then noAnswerMsg else answer)

/-- The ordered list of `(question, context)` argument pairs that
`answer_questions` passes to `query_huggingface`: same control flow as
`answer_questions`, recording the arguments of each remote call. -/
def answer_questions_calls (questions : List (List Char)) (context : List Char) :
    List (List Char × List Char) :=
  let context := truncate_context context
  questions.filterMap fun q =>
    let q := pyStrip q
    if q = [] then none else some (q, context)

/-! ## PDF Renderer (`generate_filled_pdf`, main.py lines 96-127)

The reportlab canvas is modelled as the list of drawn text lines per page.
`letter = (612, 792)`, so `height = 792` and the cursor starts at
`height - 50 = 742`.  `c.showPage()` flushes the current page;
`c.save()` flushes a trailing non-empty page (reportlab emits the pending
page iff it has content). -/

/-- One `c.drawString(x, y, text)` call. -/
structure DrawnLine where
  x : Int
  y : Int
  text : List Char
deriving DecidableEq

/-- Fuel-driven worker for `wrap80` (structural, so that it reduces in the
kernel); invoked with `fuel = s.length`, which bounds the recursion. -/
def chunksGo (fuel : Nat) (s : List Char) : List (List Char) :=
  match fuel, s with
  | _, [] => []
  | 0, _ :: _ => []
  | fuel + 1, c :: cs => (c :: cs).take 80 :: chunksGo fuel ((c :: cs).drop 80)

/-- The wrapping `[q[i:i+80] for i in range(0, len(q), 80)]`
(main.py lines 103-104); empty for the empty string. -/
def wrap80 (s : List Char) : List (List Char) :=
  chunksGo s.length s

/-- Renderer state: pages already flushed by `showPage`, lines drawn on the
current page, and the vertical cursor `y`. -/
structure RState where
  pages : List (List DrawnLine)
  current : List DrawnLine
  y : Int
deriving DecidableEq

/-- Draw a list of continuation segments at `x = 50`, advancing the cursor
by 15 per line (`for line in ...[1:]: c.drawString(50, y, line); y -= 15`).
Returns the drawn lines and the final cursor. -/
def drawSegs (y : Int) : List (List Char) → List DrawnLine × Int
  | [] => ([], y)
  | l :: ls =>
    let r := drawSegs (y - 15) ls
    (⟨50, y, l⟩ :: r.1, r.2)

/-- The loop body of `generate_filled_pdf` for one `(q, a)` pair
(main.py lines 101-125).  `none` models the `IndexError` raised by
`q_lines[0]` / `a_lines[0]` when the wrapped list is empty. -/
def drawPair (st : RState) (q a : List Char) : Option RState :=
  match wrap80 q, wrap80 a with
  | [], _ => none
  | _ :: _, [] => none
  | q0 :: qrest, a0 :: arest =>
    let qHead : DrawnLine := ⟨30, st.y, "Q: ".data ++ q0⟩
    let qr := drawSegs (st.y - 15) qrest
    let aHead : DrawnLine := ⟨30, qr.2, "A: ".data ++ a0⟩
    let ar := drawSegs (qr.2 - 15) arest
    let yNext := ar.2 - 20
    let lines := qHead :: qr.1 ++ aHead :: ar.1
    if yNext < 100 then
      some ⟨st.pages ++ [st.current ++ lines], [], 792 - 50⟩
    else
      some ⟨st.pages, st.current ++ lines, yNext⟩

/-- The `for q, a in qa_pairs` loop of `generate_filled_pdf`. -/
def renderLoop : List (List Char × List Char) → RState → Option RState
  | [], st => some st
  | (q, a) :: rest, st =>
    match drawPair st q a with
    | none => none
    | some st' => renderLoop rest st'

/-- `generate_filled_pdf` (main.py lines 96-127), returning the pages of the
rendered document (`none` models an `IndexError` escaping the function). -/
def generate_filled_pdf (qa_pairs : List (List Char × List Char)) :
    Option (List (List DrawnLine)) :=
  match renderLoop qa_pairs ⟨[], [], 792 - 50⟩ with
  | none => none
  | some st => some (st.pages ++ if st.current.isEmpty then [] else [st.current])

/-- The number of drawn lines on each page of the rendered document. -/
def pageLineCounts (qa_pairs : List (List Char × List Char)) : Option (List Nat) :=
  (generate_filled_pdf qa_pairs).map (List.map List.length)

/-- Lines per page implied by the layout constants: first line at
`y = 792 - 50 = 742`, 15 points per line, lines at `y ≥ 100`
(the minimum bottom margin): `(792 - 50 - 100) / 15 + 1 = 43`. -/
def line_capacity : Nat := (792 - 50 - 100) / 15 + 1

/-! ## The `/fill-form` endpoint (`fill_form`, main.py lines 173-223)

The two uploads are modelled after the external PDF text extraction:
each is either the extracted text or an exception message (`Except.error`
models any exception raised while reading/parsing that upload, caught by
the surrounding `try`).  The result pairs the HTTP response with the
number of remote inference calls performed. -/

/-- An HTTP response of the endpoint: an HTML error fragment with a status
code, or the rendered PDF returned as a binary attachment. -/
inductive FillResponse where
  | errorHtml (status : Nat) (body : List Char)
  | pdfAttachment (pages : List (List DrawnLine))
deriving DecidableEq

/-- Whether a response is the PDF attachment. -/
def FillResponse.isPdf : FillResponse → Bool
  | FillResponse.pdfAttachment _ => true
  | FillResponse.errorHtml _ _ => false

/-- Body of the 400 response when no questions are found (main.py 185-189). -/
def noQuestionsBody : List Char :=
  ("<h3>Error: No questions found in the PDF. Make sure questions end with '?'</h3>"
    ++ "<a href='/'>Try again</a>").data

/-- Body of the 400 response when the context is too short (main.py 194-199). -/
def insufficientBody : List Char :=
  ("<h3>Error: Not enough context found in the data PDF.</h3>"
    ++ "<a href='/'>Try again</a>").data

/-- Body of the 500 response carrying the exception message (main.py 217-223). -/
def errorBody (e : List Char) : List Char :=
  "<h3>Error processing your request: ".data ++ e
    ++ "</h3><a href='/'>Try again</a>".data

/-- Message of the `IndexError` raised by an out-of-bounds list subscript. -/
def indexErrorMsg : List Char := "list index out of range".data

/-- `fill_form` (main.py lines 173-223): extract questions, 400 if none;
extract context, 400 if shorter than 50 characters; otherwise answer the
questions and render the PDF; any exception yields a 500 carrying its
message.  The second component counts the remote inference calls made. -/
def fill_form (query : List Char → List Char → List Char)
    (questionsText : Except (List Char) (List Char))
    (dataText : Except (List Char) (List Char)) : FillResponse × Nat :=
  match questionsText with
  | Except.error e => (FillResponse.errorHtml 500 (errorBody e), 0)
  | Except.ok qt =>
    let questions := extract_questions qt
    if questions.isEmpty then (FillResponse.errorHtml 400 noQuestionsBody, 0)
    else
      match dataText with
      | Except.error e => (FillResponse.errorHtml 500 (errorBody e), 0)
      | Except.ok ctx =>
        if ctx.length < 50 then (FillResponse.errorHtml 400 insufficientBody, 0)
        else
          let qa_pairs := answer_questions query questions ctx
          let nCalls := (answer_questions_calls questions ctx).length
          match generate_filled_pdf qa_pairs with
          | none => (FillResponse.errorHtml 500 (errorBody indexErrorMsg), nCalls)
          | some pages => (FillResponse.pdfAttachment pages, nCalls)

/-- Fifty QAPairs whose first question is 4000 characters long, so its
wrapped form alone occupies 51 drawn lines of the first page. -/
def longQuestionPairs : List (List Char × List Char) :=
  (List.replicate 4000 'q', ['y']) :: List.replicate 49 ("Name?".data, "Bob".data)

/-- Fifty QAPairs whose questions and answers each fit in one wrap segment. -/
def shortPairs : List (List Char × List Char) :=
  List.replicate 50 ("Name?".data, "Bob".data)

/-! ## Shared lemmas -/

/-- A `filterMap` that strips each element, skips those that strip to empty
and applies `g` to the rest equals a `filter`-then-`map`. -/
theorem filterMap_skip_empty {α : Type} (g : List Char → α) (qs : List (List Char)) :
    (qs.filterMap fun q => if pyStrip q = [] then none else some (g (pyStrip q))) =
      ((qs.map pyStrip).filter fun q => !q.isEmpty).map g := by
  induction qs with
  | nil => rfl
  | cons q qs ih =>
    by_cases h : pyStrip q = [] <;>
      simp [List.filterMap_cons, List.filter_cons, h, ih, List.isEmpty_iff]

/-- A `filterMap` whose function is a guarded `some` equals a
`filter`-then-`map`. -/
theorem filterMap_if {α β : Type} (p : α → Prop) [DecidablePred p] (f : α → β)
    (ls : List α) :
    (ls.filterMap fun x => if p x then some (f x) else none) =
      (ls.filter fun x => decide (p x)).map f := by
  induction ls with
  | nil => rfl
  | cons x ls ih => by_cases h : p x <;> simp [List.filterMap_cons, List.filter_cons, h, ih]

/-- `answer_questions` in closed form: strip the questions, keep the
non-empty ones, pair each with its (placeholder-corrected) answer over the
truncated context. -/
theorem answer_questions_eq (query : List Char → List Char → List Char)
    (qs : List (List Char)) (ctx : List Char) :
    answer_questions query qs ctx =
      ((qs.map pyStrip).filter fun q => !q.isEmpty).map
        (fun q => (q,
          if query q (truncate_context ctx) = [] then noAnswerMsg
          else query q (truncate_context ctx))) := by
  simp only [answer_questions]
  exact filterMap_skip_empty
    (fun q => (q,
      if query q (truncate_context ctx) = [] then noAnswerMsg
      else query q (truncate_context ctx))) qs

/-- `answer_questions_calls` in closed form. -/
theorem answer_questions_calls_eq (qs : List (List Char)) (ctx : List Char) :
    answer_questions_calls qs ctx =
      ((qs.map pyStrip).filter fun q => !q.isEmpty).map
        (fun q => (q, truncate_context ctx)) := by
  simp only [answer_questions_calls]
  exact filterMap_skip_empty (fun q => (q, truncate_context ctx)) qs

/-- `chunksGo` of the empty list is empty for any fuel. -/
theorem chunksGo_nil (fuel : Nat) : chunksGo fuel [] = [] := by
  cases fuel <;> rfl

/-- With enough fuel, `chunksGo` produces one chunk per started block of 80
characters. -/
theorem chunksGo_length : ∀ (fuel : Nat) (s : List Char), s.length ≤ fuel →
    (chunksGo fuel s).length = (s.length + 79) / 80 := by
  intro fuel
  induction fuel with
  | zero =>
    intro s h
    have hs : s = [] := List.eq_nil_of_length_eq_zero (by omega)
    subst hs
    simp [chunksGo]
  | succ fuel ih =>
    intro s h
    cases s with
    | nil => simp [chunksGo]
    | cons c cs =>
      have hdl : ((c :: cs).drop 80).length = cs.length + 1 - 80 := by
        rw [List.length_drop, List.length_cons]
      have hrec := ih ((c :: cs).drop 80) (by rw [hdl]; simp at h; omega)
      simp only [chunksGo, List.length_cons, hrec, hdl]
      simp at h ⊢
      omega

/-- `wrap80` produces `⌈len/80⌉` segments. -/
theorem wrap80_length (s : List Char) : (wrap80 s).length = (s.length + 79) / 80 :=
  chunksGo_length s.length s le_rfl

/-- `wrap80` of a non-empty string is non-empty. -/
theorem wrap80_ne_nil (s : List Char) (h : s ≠ []) : wrap80 s ≠ [] := by
  cases s with
  | nil => exact absurd rfl h
  | cons c cs => simp [wrap80, chunksGo]

/-- A non-empty string of at most 80 characters wraps to a single segment. -/
theorem wrap80_single (s : List Char) (h1 : s ≠ []) (h2 : s.length ≤ 80) :
    wrap80 s = [s] := by
  cases s with
  | nil => exact absurd rfl h1
  | cons c cs =>
    have hd : (c :: cs).drop 80 = [] := List.drop_eq_nil_of_le h2
    have ht : (c :: cs).take 80 = c :: cs := List.take_of_length_le h2
    simp [wrap80, chunksGo, ht, hd, chunksGo_nil]

/-- `drawSegs` draws one line per segment. -/
theorem drawSegs_fst_length (y : Int) (ls : List (List Char)) :
    (drawSegs y ls).1.length = ls.length := by
  induction ls generalizing y with
  | nil => rfl
  | cons l ls ih => simp [drawSegs, ih]

/-- `drawSegs` advances the cursor by 15 per segment. -/
theorem drawSegs_snd (y : Int) (ls : List (List Char)) :
    (drawSegs y ls).2 = y - 15 * ls.length := by
  induction ls generalizing y with
  | nil => simp [drawSegs]
  | cons l ls ih =>
    simp [drawSegs, ih]
    ring

/-- `wrap80` of the empty string is empty. -/
theorem wrap80_nil : wrap80 [] = [] := rfl

/-- One pass of the renderer loop body: for non-empty `q` and `a` it draws
`|wrap80 q| + |wrap80 a|` lines, lowers the cursor by 15 per line plus the
20-point gap, and starts a new page exactly when the resulting cursor is
below the 100-point margin. -/
theorem drawPair_spec (st : RState) (q a : List Char) (hq : q ≠ []) (ha : a ≠ []) :
    ∃ lines : List DrawnLine,
      lines.length = (wrap80 q).length + (wrap80 a).length ∧
      drawPair st q a =
        (if st.y - 15 * (lines.length : Int) - 20 < 100 then
          some ⟨st.pages ++ [st.current ++ lines], [], 792 - 50⟩
        else
          some ⟨st.pages, st.current ++ lines, st.y - 15 * (lines.length : Int) - 20⟩) := by
  obtain ⟨q0, qrest, hq'⟩ := List.exists_cons_of_ne_nil (wrap80_ne_nil q hq)
  obtain ⟨a0, arest, ha'⟩ := List.exists_cons_of_ne_nil (wrap80_ne_nil a ha)
  refine ⟨(⟨30, st.y, "Q: ".data ++ q0⟩ : DrawnLine) ::
      ((drawSegs (st.y - 15) qrest).1 ++
        (⟨30, (drawSegs (st.y - 15) qrest).2, "A: ".data ++ a0⟩ : DrawnLine) ::
        (drawSegs ((drawSegs (st.y - 15) qrest).2 - 15) arest).1), ?_, ?_⟩
  · simp [drawSegs_fst_length, hq', ha']
    omega
  · simp only [drawPair, hq', ha']
    have hc : (drawSegs ((drawSegs (st.y - 15) qrest).2 - 15) arest).2 - 20
        = st.y - 15 * ((1 + ((drawSegs (st.y - 15) qrest).1.length +
            (1 + (drawSegs ((drawSegs (st.y - 15) qrest).2 - 15) arest).1.length)) : Nat) : Int)
          - 20 := by
      simp [drawSegs_snd, drawSegs_fst_length]
      ring
    simp only [List.length_cons, List.length_append]
    have harith : ((drawSegs (st.y - 15) qrest).1.length +
        ((drawSegs ((drawSegs (st.y - 15) qrest).2 - 15) arest).1.length + 1) + 1 : Nat)
        = 1 + ((drawSegs (st.y - 15) qrest).1.length +
            (1 + (drawSegs ((drawSegs (st.y - 15) qrest).2 - 15) arest).1.length)) := by
      ring
    rw [harith, ← hc]
    rfl

/-- Invariant of the renderer loop over pairs whose question and answer each
wrap to a single segment: between iterations the current page holds `2 * k`
lines with the cursor at `742 - 50 * k` and `k ≤ 12`; every page flushed by
the loop holds exactly 26 lines, and `13` pairs go onto each flushed page. -/
theorem renderLoop_short (pairs : List (List Char × List Char)) :
    ∀ (st : RState) (k : Nat),
      (∀ p ∈ pairs, p.1 ≠ [] ∧ p.1.length ≤ 80 ∧ p.2 ≠ [] ∧ p.2.length ≤ 80) →
      st.current.length = 2 * k →
      st.y = 742 - 50 * (k : Int) →
      k ≤ 12 →
      ∃ st' k' newPages,
        renderLoop pairs st = some st'
        ∧ st'.pages = st.pages ++ newPages
        ∧ (∀ pg ∈ newPages, pg.length = 26)
        ∧ st'.current.length = 2 * k'
        ∧ st'.y = 742 - 50 * (k' : Int)
        ∧ k' ≤ 12
        ∧ 13 * newPages.length + k' = k + pairs.length := by
  induction pairs with
  | nil =>
    intro st k _ hc hy hk
    exact ⟨st, k, [], rfl, by simp, by simp, hc, hy, hk, by simp⟩
  | cons p rest ih =>
    intro st k h hc hy hk
    obtain ⟨q, a⟩ := p
    obtain ⟨hq, hql, ha, hal⟩ := h (q, a) (List.mem_cons_self _ _)
    obtain ⟨lines, hlen, hdp⟩ := drawPair_spec st q a hq ha
    rw [wrap80_single q hq hql, wrap80_single a ha hal] at hlen
    simp only [List.length_singleton] at hlen
    rw [hlen] at hdp
    have hloopstep : ∀ st1, drawPair st q a = some st1 →
        renderLoop ((q, a) :: rest) st = renderLoop rest st1 := by
      intro st1 h1
      rw [renderLoop, h1]
    by_cases hcase : st.y - 15 * ((1 + 1 : Nat) : Int) - 20 < 100
    · rw [if_pos hcase] at hdp
      have hk12 : k = 12 := by
        rw [hy] at hcase
        omega
      have hstep := hloopstep _ hdp
      obtain ⟨st', k', newPages, hloop, hpages, h26, hc', hy', hk', hcount⟩ :=
        ih ⟨st.pages ++ [st.current ++ lines], [], 792 - 50⟩ 0
          (fun p hp => h p (List.mem_cons_of_mem _ hp)) (by simp) (by norm_num)
          (by norm_num)
      refine ⟨st', k', (st.current ++ lines) :: newPages, ?_, ?_, ?_, hc', hy', hk', ?_⟩
      · rw [hstep, hloop]
      · rw [hpages]
        simp
      · intro pg hpg
        rcases List.mem_cons.mp hpg with hpg | hpg
        · subst hpg
          rw [List.length_append, hc, hlen, hk12]
        · exact h26 pg hpg
      · have hg : ((q, a) :: rest).length = rest.length + 1 := List.length_cons _ _
        have hg2 : ((st.current ++ lines) :: newPages).length = newPages.length + 1 :=
          List.length_cons _ _
        rw [hg, hg2]
        omega
    · rw [if_neg hcase] at hdp
      have hklt : k < 12 := by
        rw [hy] at hcase
        omega
      have hstep := hloopstep _ hdp
      obtain ⟨st', k', newPages, hloop, hpages, h26, hc', hy', hk', hcount⟩ :=
        ih ⟨st.pages, st.current ++ lines, st.y - 15 * ((1 + 1 : Nat) : Int) - 20⟩ (k + 1)
          (fun p hp => h p (List.mem_cons_of_mem _ hp))
          (by simp [hc, hlen]; ring)
          (by simp [hy]; ring)
          (by omega)
      refine ⟨st', k', newPages, ?_, hpages, h26, hc', hy', hk', ?_⟩
      · rw [hstep, hloop]
      · have hg : ((q, a) :: rest).length = rest.length + 1 := List.length_cons _ _
        rw [hg]
        omega

/-- `drawPair` never fails on a pair with non-empty question and answer. -/
theorem drawPair_isSome (st : RState) (q a : List Char) (hq : q ≠ []) (ha : a ≠ []) :
    (drawPair st q a).isSome := by
  obtain ⟨lines, _, hdp⟩ := drawPair_spec st q a hq ha
  rw [hdp]
  split <;> rfl

/-- The renderer loop never fails when all pairs are non-empty. -/
theorem renderLoop_isSome (pairs : List (List Char × List Char)) :
    ∀ st : RState, (∀ p ∈ pairs, p.1 ≠ [] ∧ p.2 ≠ []) →
    (renderLoop pairs st).isSome := by
  induction pairs with
  | nil => intro st _; rfl
  | cons p rest ih =>
    intro st h
    obtain ⟨q, a⟩ := p
    obtain ⟨hq, ha⟩ := h (q, a) (List.mem_cons_self _ _)
    obtain ⟨st1, hst1⟩ := Option.isSome_iff_exists.mp (drawPair_isSome st q a hq ha)
    rw [renderLoop, hst1]
    exact ih st1 (fun p hp => h p (List.mem_cons_of_mem _ hp))

/-- `generate_filled_pdf` succeeds on any list of non-empty pairs. -/
theorem generate_filled_pdf_isSome (pairs : List (List Char × List Char))
    (h : ∀ p ∈ pairs, p.1 ≠ [] ∧ p.2 ≠ []) :
    (generate_filled_pdf pairs).isSome := by
  obtain ⟨st, hst⟩ := Option.isSome_iff_exists.mp
    (renderLoop_isSome pairs ⟨[], [], 792 - 50⟩ h)
  rw [generate_filled_pdf, hst]
  rfl

/-- Every pair emitted by `answer_questions` has a non-empty question and a
non-empty answer. -/
theorem answer_questions_pairs_ne (query : List Char → List Char → List Char)
    (qs : List (List Char)) (ctx : List Char) :
    ∀ p ∈ answer_questions query qs ctx, p.1 ≠ [] ∧ p.2 ≠ [] := by
  intro p hp
  rw [answer_questions_eq] at hp
  obtain ⟨q, hq, rfl⟩ := List.mem_map.mp hp
  have hqne : q ≠ [] := by
    have hmem := (List.mem_filter.mp hq).2
    simpa [List.isEmpty_iff] using hmem
  refine ⟨hqne, ?_⟩
  dsimp only
  split
  · decide
  · assumption

/-! ## Claim theorems -/

/-- Claim C1: for every list of extracted questions and every context
string, `answer_questions` produces exactly one `QAPair` per question that
is non-empty after trimming, in the order of the input questions; questions
empty after trimming are skipped entirely, and every pair whose remote
answer is empty carries the placeholder answer instead. -/
theorem answer_questions_one_pair_per_nonempty_question
    (query : List Char → List Char → List Char)
    (qs : List (List Char)) (ctx : List Char) :
    answer_questions query qs ctx =
      ((qs.map pyStrip).filter fun q => !q.isEmpty).map
        (fun q => (q,
          if query q (truncate_context ctx) = [] then noAnswerMsg
          else query q (truncate_context ctx)))
    ∧ (answer_questions query qs ctx).length =
        ((qs.map pyStrip).filter fun q => !q.isEmpty).length := by
  refine ⟨answer_questions_eq query qs ctx, ?_⟩
  rw [answer_questions_eq query qs ctx, List.length_map]

/-- Claim C2: for every input text, `extract_questions` returns exactly the
trimmed forms of those lines containing `'?'` whose trimmed length exceeds
5, in source order with duplicates preserved, and nothing else. -/
theorem extract_questions_filter_spec (text : List Char) :
    extract_questions text =
      ((splitlines text).filter
        fun l => decide ('?' ∈ l ∧ 5 < (pyStrip l).length)).map pyStrip
    ∧ ∀ s, s ∈ extract_questions text ↔
        ∃ l, l ∈ splitlines text ∧ '?' ∈ l ∧ 5 < (pyStrip l).length ∧ s = pyStrip l := by
  have h := filterMap_if (fun l => '?' ∈ l ∧ 5 < (pyStrip l).length) pyStrip (splitlines text)
  refine ⟨h, fun s => ?_⟩
  rw [extract_questions, h]
  simp only [List.mem_map, List.mem_filter, decide_eq_true_eq]
  constructor
  · rintro ⟨l, ⟨hl, hq, hlen⟩, rfl⟩
    exact ⟨l, hl, hq, hlen, rfl⟩
  · rintro ⟨l, hl, hq, hlen, rfl⟩
    exact ⟨l, ⟨hl, hq, hlen⟩, rfl⟩

/-- Claim C3, counterexample: the scenario text does NOT yield the two
questions `"What is your name?"` and `"Age?"`. -/
theorem extract_questions_scenario_cex :
    extract_questions "What is your name?\nRandom line.\nAge?".data ≠
      ["What is your name?".data, "Age?".data] := by
  decide

/-- Claim C3, amended: the scenario text yields exactly one extracted
question, `"What is your name?"`: `"Random line."` is excluded because it
contains no `'?'`, and `"Age?"` is excluded because its trimmed length 4
does not exceed the 5-character minimum. -/
theorem extract_questions_scenario :
    extract_questions "What is your name?\nRandom line.\nAge?".data =
      ["What is your name?".data] := by
  decide

/-- Claim C4: for every `N < 3`, if the endpoint responds 503 ("model
loading") on the first `N` requests and 200 with an answer on the next one,
`query_huggingface` retries exactly `N` times — sending `N + 1` requests and
sleeping the fixed 20-second backoff before each retry — and returns the
eventual answer. -/
theorem query_huggingface_retries_on_model_loading
    (N : Nat) (responses : Nat → Outcome) (ans : List Char)
    (hN : N < 3)
    (h503 : ∀ i, i < N → ∃ b, responses i = Outcome.resp 503 b)
    (hok : responses N = Outcome.resp 200 ans) :
    query_huggingface responses 3 = (ans, N + 1, List.replicate N 20) := by
  have hr : List.range 3 = [0, 1, 2] := rfl
  interval_cases N
  · simp [query_huggingface, hr, runQuery, hok]
  · obtain ⟨b0, h0⟩ := h503 0 (by norm_num)
    simp [query_huggingface, hr, runQuery, h0, hok]
  · obtain ⟨b0, h0⟩ := h503 0 (by norm_num)
    obtain ⟨b1, h1⟩ := h503 1 (by norm_num)
    simp [query_huggingface, hr, runQuery, h0, h1, hok, List.replicate]

/-- Witness for claim C4 at `N = 2`: two model-loading responses then a
success yield the answer after two 20-second backoffs. -/
theorem query_huggingface_retries_on_model_loading_witness :
    query_huggingface
      (fun i => if i < 2 then Outcome.resp 503 [] else Outcome.resp 200 ['4', '2'])
      3 = (['4', '2'], 3, [20, 20]) := by
  have h := query_huggingface_retries_on_model_loading 2
    (fun i => if i < 2 then Outcome.resp 503 [] else Outcome.resp 200 ['4', '2'])
    ['4', '2'] (by norm_num)
    (fun i hi => ⟨[], by simp [hi]⟩) (by norm_num)
  simpa using h

/-- Claim C5: `query_huggingface` never raises (it is a total function of
the attempt outcomes) and returns the empty string in every unsuccessful
case: immediately, after a single request with no backoff, on a
non-success non-transient response status or a non-timeout transport
failure at the first attempt; and after exhausting all 3 attempts when
every attempt's outcome is transient (503, 429, or timeout). -/
theorem query_huggingface_failures_return_empty :
    (∀ (responses : Nat → Outcome) (code : Nat) (b : List Char),
        code ≠ 200 → code ≠ 503 → code ≠ 429 →
        responses 0 = Outcome.resp code b →
        query_huggingface responses 3 = ([], 1, []))
    ∧ (∀ responses : Nat → Outcome,
        responses 0 = Outcome.exc →
        query_huggingface responses 3 = ([], 1, []))
    ∧ (∀ responses : Nat → Outcome,
        (∀ i, i < 3 → transientOutcome (responses i)) →
        (query_huggingface responses 3).1 = []) := by
  have hr : List.range 3 = [0, 1, 2] := rfl
  refine ⟨?_, ?_, ?_⟩
  · intro responses code b h200 h503 h429 h0
    simp [query_huggingface, hr, runQuery, h0, h200, h503, h429]
  · intro responses h0
    simp [query_huggingface, hr, runQuery, h0]
  · intro responses h
    have h0 := h 0 (by norm_num)
    have h1 := h 1 (by norm_num)
    have h2 := h 2 (by norm_num)
    rcases h0 with ⟨b0, e0⟩ | ⟨b0, e0⟩ | e0 <;>
      rcases h1 with ⟨b1, e1⟩ | ⟨b1, e1⟩ | e1 <;>
        rcases h2 with ⟨b2, e2⟩ | ⟨b2, e2⟩ | e2 <;>
          simp [query_huggingface, hr, runQuery, e0, e1, e2]

/-- Witness for claim C5: a hard 500 response, a non-timeout transport
failure, and three straight timeouts all produce the empty answer. -/
theorem query_huggingface_failures_return_empty_witness :
    query_huggingface (fun _ => Outcome.resp 500 ['x']) 3 = ([], 1, [])
    ∧ query_huggingface (fun _ => Outcome.exc) 3 = ([], 1, [])
    ∧ (query_huggingface (fun _ => Outcome.timeout) 3).1 = [] := by
  refine ⟨?_, ?_, ?_⟩
  · exact query_huggingface_failures_return_empty.1 _ 500 ['x']
      (by norm_num) (by norm_num) (by norm_num) rfl
  · exact query_huggingface_failures_return_empty.2.1 _ rfl
  · exact query_huggingface_failures_return_empty.2.2 _
      (fun i _ => Or.inr (Or.inr rfl))

/-- Claim C6: a context shorter than the 4000-character limit is passed to
every inference call unmodified (no truncation marker), and a context
longer than the limit is passed to every call as exactly its first 4000
characters followed by the marker `"..."`. -/
theorem answer_questions_context_truncation (qs : List (List Char)) (ctx : List Char) :
    (ctx.length < 4000 →
      answer_questions_calls qs ctx =
        ((qs.map pyStrip).filter fun q => !q.isEmpty).map (fun q => (q, ctx)))
    ∧ (4000 < ctx.length →
      answer_questions_calls qs ctx =
        ((qs.map pyStrip).filter fun q => !q.isEmpty).map
          (fun q => (q, ctx.take 4000 ++ "...".data))) := by
  constructor
  · intro h
    rw [answer_questions_calls_eq, truncate_context, if_neg (by omega)]
  · intro h
    rw [answer_questions_calls_eq, truncate_context, if_pos h]

/-- Witness for claim C6: a 1-character context is passed through untouched;
a 4001-character context is cut to its first 4000 characters plus `"..."`. -/
theorem answer_questions_context_truncation_witness :
    answer_questions_calls ["hi?".data] ['c'] = [("hi?".data, ['c'])]
    ∧ answer_questions_calls ["hi?".data] (List.replicate 4001 'c') =
        [("hi?".data, List.replicate 4000 'c' ++ "...".data)] := by
  have hfilter : ((["hi?".data].map pyStrip).filter fun q => !q.isEmpty) =
      ["hi?".data] := by decide
  constructor
  · rw [(answer_questions_context_truncation ["hi?".data] ['c']).1 (by decide), hfilter]
    rfl
  · rw [(answer_questions_context_truncation ["hi?".data] (List.replicate 4001 'c')).2
      (by rw [List.length_replicate]; norm_num), hfilter,
      List.take_replicate, min_eq_left (by norm_num)]
    rfl

/-- Claim C10: a context whose length is exactly the 4000-character limit is
passed to every inference call unmodified, with no truncation marker (the
truncation branch fires only for lengths strictly greater than 4000). -/
theorem answer_questions_context_exact_limit (qs : List (List Char)) (ctx : List Char)
    (h : ctx.length = 4000) :
    answer_questions_calls qs ctx =
      ((qs.map pyStrip).filter fun q => !q.isEmpty).map (fun q => (q, ctx)) := by
  rw [answer_questions_calls_eq, truncate_context, if_neg (by omega)]

/-- Witness for claim C10: a context of exactly 4000 characters reaches the
inference call unmodified. -/
theorem answer_questions_context_exact_limit_witness :
    answer_questions_calls ["hi?".data] (List.replicate 4000 'c') =
      [("hi?".data, List.replicate 4000 'c')] := by
  have hfilter : ((["hi?".data].map pyStrip).filter fun q => !q.isEmpty) =
      ["hi?".data] := by decide
  rw [answer_questions_context_exact_limit ["hi?".data] (List.replicate 4000 'c')
    (List.length_replicate 4000 'c'), hfilter]
  rfl

/-- Claim C7: the fill-form endpoint responds 400 with no remote calls when
no questions are extracted, 400 when the extracted context is shorter than
50 characters, 500 carrying the exception message when an exception occurs
while reading either upload, and on success returns the rendered PDF as a
binary attachment (having made one remote call per answered question). -/
theorem fill_form_responses (query : List Char → List Char → List Char) :
    (∀ qt dt, extract_questions qt = [] →
        fill_form query (Except.ok qt) dt = (FillResponse.errorHtml 400 noQuestionsBody, 0))
    ∧ (∀ qt ctx, extract_questions qt ≠ [] → ctx.length < 50 →
        fill_form query (Except.ok qt) (Except.ok ctx) =
          (FillResponse.errorHtml 400 insufficientBody, 0))
    ∧ (∀ e dt, fill_form query (Except.error e) dt =
        (FillResponse.errorHtml 500 (errorBody e), 0))
    ∧ (∀ qt e, extract_questions qt ≠ [] →
        fill_form query (Except.ok qt) (Except.error e) =
          (FillResponse.errorHtml 500 (errorBody e), 0))
    ∧ (∀ qt ctx, extract_questions qt ≠ [] → ¬ ctx.length < 50 →
        ∃ pages, fill_form query (Except.ok qt) (Except.ok ctx) =
          (FillResponse.pdfAttachment pages,
            (answer_questions_calls (extract_questions qt) ctx).length)) := by
  refine ⟨?_, ?_, ?_, ?_, ?_⟩
  · intro qt dt h
    simp [fill_form, h]
  · intro qt ctx h hlt
    have hne : (extract_questions qt).isEmpty = false := by
      simpa [List.isEmpty_iff] using h
    simp [fill_form, hne, hlt]
  · intro e dt
    rfl
  · intro qt e h
    have hne : (extract_questions qt).isEmpty = false := by
      simpa [List.isEmpty_iff] using h
    simp [fill_form, hne]
  · intro qt ctx h hge
    have hne : (extract_questions qt).isEmpty = false := by
      simpa [List.isEmpty_iff] using h
    obtain ⟨pages, hp⟩ := Option.isSome_iff_exists.mp
      (generate_filled_pdf_isSome (answer_questions query (extract_questions qt) ctx)
        (answer_questions_pairs_ne query (extract_questions qt) ctx))
    refine ⟨pages, ?_⟩
    simp [fill_form, hne, hge, hp]

/-- Witness for claim C7: a questions text without questions gives a 400
and zero remote calls; a one-character context gives a 400; a failing
upload gives a 500 carrying the message; a valid pair of uploads gives the
PDF attachment. -/
theorem fill_form_responses_witness :
    fill_form (fun _ _ => []) (Except.ok "blah".data) (Except.ok ['x']) =
      (FillResponse.errorHtml 400 noQuestionsBody, 0)
    ∧ fill_form (fun _ _ => []) (Except.ok "Is this a question?".data) (Except.ok ['x']) =
      (FillResponse.errorHtml 400 insufficientBody, 0)
    ∧ fill_form (fun _ _ => []) (Except.error "boom".data) (Except.ok ['x']) =
      (FillResponse.errorHtml 500 (errorBody "boom".data), 0)
    ∧ fill_form (fun _ _ => []) (Except.ok "Is this a question?".data)
        (Except.error "boom".data) =
      (FillResponse.errorHtml 500 (errorBody "boom".data), 0)
    ∧ (fill_form (fun _ _ => []) (Except.ok "Is this a question?".data)
        (Except.ok (List.replicate 60 'c'))).1.isPdf = true := by
  refine ⟨?_, ?_, ?_, ?_, ?_⟩
  · exact (fill_form_responses _).1 _ _ (by decide)
  · exact (fill_form_responses _).2.1 _ _ (by decide) (by decide)
  · exact (fill_form_responses _).2.2.1 _ _
  · exact (fill_form_responses _).2.2.2.1 _ _ (by decide)
  · obtain ⟨pages, hp⟩ := (fill_form_responses (fun _ _ => [])).2.2.2.2
      "Is this a question?".data (List.replicate 60 'c') (by decide)
      (by rw [List.length_replicate]; norm_num)
    rw [hp]
    rfl

/-- Claim C8, counterexample: `longQuestionPairs` has 50 entries, yet the
first page of the rendered document holds 51 drawn lines — more than the
43-line capacity implied by the layout constants — because the page-break
check runs only between pairs, never inside one. -/
theorem generate_filled_pdf_capacity_cex :
    longQuestionPairs.length = 50
    ∧ ((pageLineCounts longQuestionPairs).getD []).getD 0 0 = 51
    ∧ line_capacity < 51 := by
  refine ⟨by decide, ?_, by decide⟩
  have hqne : (List.replicate 4000 'q' : List Char) ≠ [] := by
    apply List.ne_nil_of_length_pos
    rw [List.length_replicate]
    norm_num
  obtain ⟨lines, hlen, hdp⟩ :=
    drawPair_spec ⟨[], [], 792 - 50⟩ (List.replicate 4000 'q') ['y'] hqne (by simp)
  have hwl : (wrap80 (List.replicate 4000 'q')).length = 50 := by
    rw [wrap80_length, List.length_replicate]
  have hwa : (wrap80 ['y']).length = 1 := by decide
  rw [hwl, hwa] at hlen
  rw [hlen] at hdp
  rw [if_pos (by norm_num)] at hdp
  have hdp2 : drawPair ⟨[], [], 792 - 50⟩ (List.replicate 4000 'q') ['y'] =
      some ⟨[lines], [], 792 - 50⟩ := by
    rw [hdp]
    simp
  obtain ⟨st', k', newPages, hloop, hpages, h26, hc', hy', hk', hcount⟩ :=
    renderLoop_short (List.replicate 49 ("Name?".data, "Bob".data))
      ⟨[lines], [], 792 - 50⟩ 0 (by decide) (by simp) (by norm_num)
      (by norm_num)
  have hrl : renderLoop longQuestionPairs ⟨[], [], 792 - 50⟩ = some st' := by
    simp only [longQuestionPairs]
    rw [renderLoop, hdp2]
    exact hloop
  have hk10 : k' = 10 := by
    have hg : (List.replicate 49 (("Name?".data, "Bob".data) :
        List Char × List Char)).length = 49 := List.length_replicate _ _
    omega
  have hcne : st'.current.isEmpty = false := by
    have h20 : st'.current.length = 20 := by rw [hc', hk10]
    cases hcur : st'.current with
    | nil => rw [hcur] at h20; simp at h20
    | cons x xs => rfl
  have hg2 : generate_filled_pdf longQuestionPairs = some (st'.pages ++ [st'.current]) := by
    rw [generate_filled_pdf, hrl]
    show some (st'.pages ++ if st'.current.isEmpty = true then [] else [st'.current]) =
      some (st'.pages ++ [st'.current])
    rw [hcne]
    simp
  rw [pageLineCounts, hg2]
  have hpages2 : st'.pages = [lines] ++ newPages := by simpa using hpages
  rw [hpages2]
  simp [hlen]

/-- Claim C8, amended: for every list of 50 QAPairs in which each question
and each answer is non-empty and wraps to a single 80-character segment,
`generate_filled_pdf` produces a multi-page document in which no page
receives more drawn lines than the 43-line capacity implied by the page
height, top margin, line spacing and minimum bottom margin; a new page is
started whenever the vertical cursor drops below the minimum margin after a
pair.  (The restriction to single-segment pairs is forced by the
counterexample: the page-break check runs only between pairs, so one pair
with many wrap segments can overfill a page.) -/
theorem generate_filled_pdf_page_capacity (pairs : List (List Char × List Char))
    (hlen : pairs.length = 50)
    (hshort : ∀ p ∈ pairs, p.1 ≠ [] ∧ p.1.length ≤ 80 ∧ p.2 ≠ [] ∧ p.2.length ≤ 80) :
    ∃ pages, generate_filled_pdf pairs = some pages ∧ 2 ≤ pages.length
      ∧ ∀ pg ∈ pages, pg.length ≤ line_capacity := by
  obtain ⟨st', k', newPages, hloop, hpages, h26, hc', hy', hk', hcount⟩ :=
    renderLoop_short pairs ⟨[], [], 792 - 50⟩ 0 hshort (by simp) (by norm_num) (by norm_num)
  rw [hlen] at hcount
  have hcap : line_capacity = 43 := by norm_num [line_capacity]
  have hpages2 : st'.pages = newPages := by simpa using hpages
  rw [generate_filled_pdf, hloop]
  refine ⟨_, rfl, ?_, ?_⟩
  · rw [List.length_append, hpages2]
    have h3 : 3 ≤ newPages.length := by omega
    omega
  · intro pg hpg
    rcases List.mem_append.mp hpg with hmem | hmem
    · rw [hpages2] at hmem
      rw [h26 pg hmem, hcap]
      omega
    · by_cases hemp : st'.current.isEmpty
      · rw [if_pos hemp] at hmem
        simp at hmem
      · rw [if_neg hemp] at hmem
        have hpg2 : pg = st'.current := by simpa using hmem
        subst hpg2
        rw [hcap]
        omega

/-- Witness for the amended claim C8: fifty short pairs render with every
page within the 43-line capacity, across at least two pages. -/
theorem generate_filled_pdf_page_capacity_witness :
    (((generate_filled_pdf shortPairs).getD []).map List.length).all
      (fun n => n ≤ line_capacity) = true
    ∧ 2 ≤ ((generate_filled_pdf shortPairs).getD []).length := by
  obtain ⟨pages, hp, h2, hcap⟩ := generate_filled_pdf_page_capacity shortPairs
    (by decide) (by decide)
  rw [hp]
  constructor
  · rw [Option.getD_some, List.all_eq_true]
    intro n hn
    obtain ⟨pg, hpg, rfl⟩ := List.mem_map.mp hn
    simpa using hcap pg hpg
  · simpa using h2

/-- Claim C9: every QAPair produced by `answer_questions` has a non-empty
question and a non-empty answer; under this precondition the renderer's
accesses `q_lines[0]` and `a_lines[0]` are in bounds and rendering
succeeds, whereas `generate_filled_pdf` applied to a pair with an empty
question or an empty answer raises an `IndexError` (modelled as `none`). -/
theorem renderer_index_safety :
    (∀ (query : List Char → List Char → List Char) (qs : List (List Char)) (ctx : List Char),
        ∀ p ∈ answer_questions query qs ctx, p.1 ≠ [] ∧ p.2 ≠ [])
    ∧ (∀ pairs : List (List Char × List Char),
        (∀ p ∈ pairs, p.1 ≠ [] ∧ p.2 ≠ []) → (generate_filled_pdf pairs).isSome = true)
    ∧ (∀ a : List Char, generate_filled_pdf [([], a)] = none)
    ∧ (∀ q : List Char, q ≠ [] → generate_filled_pdf [(q, [])] = none) := by
  refine ⟨answer_questions_pairs_ne, generate_filled_pdf_isSome, ?_, ?_⟩
  · intro a
    rfl
  · intro q hq
    obtain ⟨q0, qrest, hq'⟩ := List.exists_cons_of_ne_nil (wrap80_ne_nil q hq)
    simp [generate_filled_pdf, renderLoop, drawPair, hq', wrap80_nil]

/-- Witness for claim C9: a pipeline pair is non-empty; a non-empty pair
renders; an empty question or an empty answer makes the renderer fail. -/
theorem renderer_index_safety_witness :
    ("hi?".data ≠ [] ∧ noAnswerMsg ≠ [])
    ∧ (generate_filled_pdf [(['q'], ['a'])]).isSome = true
    ∧ generate_filled_pdf [([], ['a'])] = none
    ∧ generate_filled_pdf [(['q'], [])] = none := by
  refine ⟨?_, ?_, ?_, ?_⟩
  · exact renderer_index_safety.1 (fun _ _ => []) ["hi?".data] ['c']
      ("hi?".data, noAnswerMsg) (by decide)
  · exact renderer_index_safety.2.1 [(['q'], ['a'])] (by decide)
  · exact renderer_index_safety.2.2.1 ['a']
  · exact renderer_index_safety.2.2.2 ['q'] (by decide)

end FormFiller
